import Mathlib

/-
Verification of the firecrawl_cli task-orchestration and caching core.

Shallow embedding of:
  src/errors/mod.rs            (FirecrawlError, ApiError, NetworkError, is_retryable)
  src/storage/errors.rs        (StorageError)
  src/commands/mod.rs          (Command, CommandResult)
  src/commands/task_queue.rs   (TaskQueue::execute_all, TaskQueue::execute_sequential,
                                the counting-semaphore permit discipline)
  src/services/cache_service.rs (MemoryCacheService and CacheStatistics)
  src/api/services/client.rs   (check_crawl_status, monitor_crawl_job)
  src/api/models/crawl_model.rs, src/api/models/scrape_model.rs, src/cli.rs (data types)

Modelling conventions:
  - Time (chrono::Utc::now) is an explicit `now : Nat` parameter, in milliseconds.
  - std::time::Duration is its millisecond count; Duration::as_secs is division by 1000.
  - PathBuf is a String; PathBuf::new() is the empty string.
  - u64/u32/usize counters are Nat (no claim here depends on wrap-around).
  - f64 (the hit_rate field) is Rat; every hit_rate value arising in this development
    is exact in binary floating point (0, 50, 100), so no rounding is lost.
  - HashMap<String, CacheEntry> is an association list with insert-replace semantics.
  - The async executor is erased: each awaited call is a pure function of explicit
    inputs, and the tokio Semaphore discipline of execute_all is modelled as an
    interleaving transition system (SemState / Step below).
  - Each queued trait-object command is modelled by the outcome its execute method
    would produce for the fixed repository and output directory execute_all and
    execute_sequential receive, plus its url accessor.
-/

namespace Firecrawl

/-! Error taxonomy, from src/storage/errors.rs and src/errors/mod.rs. -/

/-- StorageError, src/storage/errors.rs lines 6-30. -/
inductive StorageError
| FileSystem (msg : String)
| Serialization (msg : String)
| InvalidPath (msg : String)
| PermissionDenied (msg : String)
| DirectoryNotFound (msg : String)
| FileExists (msg : String)
| FileNotFound (msg : String)
| UnsupportedContentType (msg : String)
deriving DecidableEq

/-- ApiError, src/errors/mod.rs lines 49-77. -/
inductive ApiError
| RequestError (msg : String)
| InvalidResponse (msg : String)
| ApiFailure (status : Nat) (message : String)
| RateLimitExceeded
| AuthenticationFailed (msg : String)
| EndpointNotFound (msg : String)
| InvalidApiKey
| Timeout (msg : String)
| Other (msg : String)
deriving DecidableEq

/-- NetworkError, src/errors/mod.rs lines 92-111. -/
inductive NetworkError
| ConnectionFailed (msg : String)
| DnsError (msg : String)
| SslError (msg : String)
| Timeout (msg : String)
| InvalidUrl (msg : String)
| ProxyError (msg : String)
deriving DecidableEq

/-- FirecrawlError, src/errors/mod.rs lines 5-46. -/
inductive FirecrawlError
| ApiError (e : ApiError)
| StorageError (e : StorageError)
| ConfigurationError (msg : String)
| ValidationError (msg : String)
| ExecutionError (msg : String)
| NetworkError (e : NetworkError)
| UiError (msg : String)
| AuthenticationError (msg : String)
| RateLimitError (msg : String)
| TimeoutError (msg : String)
deriving DecidableEq

/-- FirecrawlError::is_retryable, src/errors/mod.rs lines 134-147. -/
def FirecrawlError.is_retryable : FirecrawlError → Bool
| .NetworkError _ => true
| .ApiError api_error =>
    match api_error with
    | .RequestError _ => true
    | .Timeout _ => true
    | .RateLimitExceeded => true
    | _ => false
| .TimeoutError _ => true
| .StorageError _ => false
| _ => false

/-! Command abstraction, from src/commands/mod.rs. -/

/-- CommandResult, src/commands/mod.rs lines 39-49. PathBuf modelled as String. -/
inductive CommandResult
| Scrape (url : String) (file_path : String)
| Crawl (url : String) (file_paths : List String)
deriving DecidableEq

instance {ε α : Type} [DecidableEq ε] [DecidableEq α] : DecidableEq (Except ε α) := fun x y =>
  match x, y with
  | .ok a, .ok b =>
      if h : a = b then .isTrue (by rw [h]) else .isFalse (by intro hh; cases hh; exact h rfl)
  | .error a, .error b =>
      if h : a = b then .isTrue (by rw [h]) else .isFalse (by intro hh; cases hh; exact h rfl)
  | .ok _, .error _ => .isFalse (by intro hh; cases hh)
  | .error _, .ok _ => .isFalse (by intro hh; cases hh)

/-- A queued boxed command (dyn Command<Result = CommandResult>): its url accessor and
the outcome its execute method produces for the repository and output directory the
queue passes to it. -/
structure Command where
  url : String
  execute : Except FirecrawlError CommandResult
deriving DecidableEq

/-! TaskQueue, from src/commands/task_queue.rs. The queue contents at the start of a
run are the list of commands in FIFO order. -/

namespace TaskQueue

/-- The body of the closure spawned per command by execute_all, task_queue.rs
lines 81-98: it acquires a permit (always granted, the semaphore is never closed),
notifies the observer (NoOpObserver by default, no effect on the result), and then
returns the hard-coded placeholder CommandResult::Scrape with url and an empty
PathBuf::new() file path, without ever calling cmd.execute. -/
def spawnedTask (cmd : Command) : Except FirecrawlError CommandResult :=
  .ok (.Scrape cmd.url "")

/-- The handle-collection loop of execute_all, task_queue.rs lines 107-121: results
are pushed in spawn order; the first Err aborts the whole batch with that error. -/
def collectHandles : List (Except FirecrawlError CommandResult) →
    Except FirecrawlError (List CommandResult)
| [] => .ok []
| .ok r :: rest =>
    match collectHandles rest with
    | .ok rs => .ok (r :: rs)
    | .error e => .error e
| .error e :: _ => .error e

/-- TaskQueue::execute_all, task_queue.rs lines 61-124: pops every command, spawns
spawnedTask for it, then collects the handles in order. -/
def execute_all (queue : List Command) : Except FirecrawlError (List CommandResult) :=
  collectHandles (queue.map spawnedTask)

/-- TaskQueue::execute_sequential, task_queue.rs lines 127-149: pops commands in FIFO
order, runs cmd.execute on each, and propagates the first error immediately via the
question-mark operator, discarding the results collected so far. -/
def execute_sequential : List Command → Except FirecrawlError (List CommandResult)
| [] => .ok []
| cmd :: rest =>
    match cmd.execute with
    | .error e => .error e
    | .ok r =>
        match execute_sequential rest with
        | .ok rs => .ok (r :: rs)
        | .error e => .error e

/-! The counting-semaphore permit discipline of execute_all (task_queue.rs lines
22, 77, 82-85: Semaphore::new(concurrency_limit), acquire at the top of each spawned
unit, release by RAII drop of the permit when the unit terminates in any way). -/

/-- A snapshot of one batch execution: permits still available in the semaphore,
spawned units that have not yet acquired a permit, units currently holding a permit
(executing), and units that have terminated (normally or abnormally). -/
structure SemState where
  available : Nat
  pending : Nat
  executing : Nat
  finished : Nat
deriving DecidableEq

/-- Initial state of a batch of n spawned units under Semaphore::new(limit). -/
def initState (n limit : Nat) : SemState :=
  ⟨limit, n, 0, 0⟩

/-- One scheduler step: a pending unit acquires a permit and starts executing, or an
executing unit terminates (success, error, or cancellation) and its permit is
returned by the drop of the RAII guard. -/
inductive Step : SemState → SemState → Prop
| acquire (s : SemState) :
    0 < s.pending → 0 < s.available →
    Step s ⟨s.available - 1, s.pending - 1, s.executing + 1, s.finished⟩
| finish (s : SemState) :
    0 < s.executing →
    Step s ⟨s.available + 1, s.pending, s.executing - 1, s.finished + 1⟩

/-- States reachable by the scheduler from the start of a batch of n units with
concurrency limit `limit`. -/
def Reachable (n limit : Nat) (s : SemState) : Prop :=
  Relation.ReflTransGen Step (initState n limit) s

end TaskQueue

/-! Result cache, from src/services/cache_service.rs and src/cli.rs. -/

/-- OutputFormat, src/cli.rs lines 53-68. -/
inductive OutputFormat
| Markdown
| Html
| Json
| Raw
| RawHtml
| Links
| Images
deriving DecidableEq

/-- The Display implementation of OutputFormat, src/cli.rs lines 76-88; generate_key
interpolates the format through this. -/
def OutputFormat.display : OutputFormat → String
| .Markdown => "markdown"
| .Html => "html"
| .Json => "json"
| .Raw => "raw"
| .RawHtml => "rawHtml"
| .Links => "links"
| .Images => "images"

/-- CacheData, src/services/cache_service.rs lines 100-104. -/
inductive CacheData
| ScrapeResult (r : CommandResult)
| CrawlResult (r : CommandResult)
deriving DecidableEq

/-- Whether a CacheData is the ScrapeResult variant (the matches! predicate used for
the scrape_entries recounts). -/
def CacheData.isScrape : CacheData → Bool
| .ScrapeResult _ => true
| .CrawlResult _ => false

/-- Whether a CacheData is the CrawlResult variant. -/
def CacheData.isCrawl : CacheData → Bool
| .ScrapeResult _ => false
| .CrawlResult _ => true

/-- CacheEntry, src/services/cache_service.rs lines 90-97. Timestamps in ms. -/
structure CacheEntry where
  data : CacheData
  created_at : Nat
  expires_at : Option Nat
  access_count : Nat
  last_accessed : Nat
deriving DecidableEq

/-- CacheStatistics, src/services/cache_service.rs lines 59-68. hit_rate is an f64 in
the source, modelled as Rat (exact at every value arising here). -/
structure CacheStatistics where
  total_entries : Nat
  scrape_entries : Nat
  crawl_entries : Nat
  cache_hits : Nat
  cache_misses : Nat
  total_size_bytes : Nat
  hit_rate : Rat
deriving DecidableEq

/-- CacheStatistics::default(): all counters zero. -/
def CacheStatistics.zeroed : CacheStatistics :=
  ⟨0, 0, 0, 0, 0, 0, 0⟩

/-- CacheStatistics::calculate_hit_rate, src/services/cache_service.rs lines 72-79:
hits over total requests as a percentage, 0.0 when no requests occurred. -/
def CacheStatistics.calculate_hit_rate (s : CacheStatistics) : Rat :=
  let total_requests := s.cache_hits + s.cache_misses
  if total_requests = 0 then 0
  else ((s.cache_hits : Rat) / (total_requests : Rat)) * 100

/-- CacheConfig, src/config/mod.rs lines 161-173. ttl is a std::time::Duration,
carried as its millisecond count; the directory field is not consulted by the
in-memory cache and is omitted. -/
structure CacheConfig where
  enabled : Bool
  ttl_ms : Nat
  max_size_mb : Nat
deriving DecidableEq

/-- Duration::as_secs of the configured ttl: whole seconds, truncating. -/
def CacheConfig.ttl_as_secs (c : CacheConfig) : Nat :=
  c.ttl_ms / 1000

/-- The cache HashMap, as an association list with unique keys maintained by
insertKey / eraseKey below. -/
def CacheMap : Type :=
  List (String × CacheEntry)

instance : DecidableEq CacheMap :=
  inferInstanceAs (DecidableEq (List (String × CacheEntry)))

/-- HashMap::get / get_mut lookup. -/
def lookupKey (k : String) : CacheMap → Option CacheEntry
| [] => none
| (k2, e) :: rest => if k2 = k then some e else lookupKey k rest

/-- HashMap::insert: overwrites the binding of k if present, appends otherwise. -/
def insertKey (k : String) (v : CacheEntry) : CacheMap → CacheMap
| [] => [(k, v)]
| (k2, e) :: rest => if k2 = k then (k, v) :: rest else (k2, e) :: insertKey k v rest

/-- HashMap::remove of the (unique) binding of k. -/
def eraseKey (k : String) : CacheMap → CacheMap
| [] => []
| (k2, e) :: rest => if k2 = k then rest else (k2, e) :: eraseKey k rest

/-- Number of entries of a CacheMap whose data satisfies p (the values().filter(...)
.count() recounts in cache_service.rs). -/
def countData (p : CacheData → Bool) (m : CacheMap) : Nat :=
  (m.filter (fun q => p q.2.data)).length

/-- MemoryCacheService state, src/services/cache_service.rs lines 83-87: the shared
cache map and statistics behind their RwLocks, plus the CacheConfig. -/
structure MemoryCacheService where
  cache : CacheMap
  statistics : CacheStatistics
  config : CacheConfig
deriving DecidableEq

namespace MemoryCacheService

/-- MemoryCacheService::generate_key, cache_service.rs lines 122-124:
format!(data_type, url, format) joined by colons. -/
def generate_key (url : String) (format : OutputFormat) (data_type : String) : String :=
  data_type ++ ":" ++ url ++ ":" ++ format.display

/-- MemoryCacheService::is_expired, cache_service.rs lines 127-133: expired when an
expiry timestamp exists and the current instant is strictly past it. -/
def is_expired (now : Nat) (entry : CacheEntry) : Bool :=
  match entry.expires_at with
  | some e => decide (now > e)
  | none => false

/-- MemoryCacheService::store_scrape_result, cache_service.rs lines 154-185. The
expiry timestamp is set only when config.ttl.as_secs() > 0 (note the truncation to
whole seconds); the fresh entry starts with access_count 1; statistics record the
new map size and increment scrape_entries. Always returns Ok(()), so only the new
state is modelled. -/
def store_scrape_result (svc : MemoryCacheService) (now : Nat) (url : String)
    (format : OutputFormat) (result : CommandResult) : MemoryCacheService :=
  let key := generate_key url format "scrape"
  let expires_at := if svc.config.ttl_as_secs > 0 then some (now + svc.config.ttl_ms) else none
  let entry : CacheEntry := ⟨.ScrapeResult result, now, expires_at, 1, now⟩
  let cache := insertKey key entry svc.cache
  let stats := { svc.statistics with
    total_entries := cache.length
    scrape_entries := svc.statistics.scrape_entries + 1 }
  { svc with cache := cache, statistics := stats }

/-- MemoryCacheService::store_crawl_result, cache_service.rs lines 240-270: the
crawl-key analogue of store_scrape_result. -/
def store_crawl_result (svc : MemoryCacheService) (now : Nat) (url : String)
    (format : OutputFormat) (result : CommandResult) : MemoryCacheService :=
  let key := generate_key url format "crawl"
  let expires_at := if svc.config.ttl_as_secs > 0 then some (now + svc.config.ttl_ms) else none
  let entry : CacheEntry := ⟨.CrawlResult result, now, expires_at, 1, now⟩
  let cache := insertKey key entry svc.cache
  let stats := { svc.statistics with
    total_entries := cache.length
    crawl_entries := svc.statistics.crawl_entries + 1 }
  { svc with cache := cache, statistics := stats }

/-- MemoryCacheService::get_scrape_result, cache_service.rs lines 187-238. Expired
entry: removed, miss counted, entry counters recomputed, hit_rate left untouched.
Live entry: access metadata updated in place, hit counted, hit_rate recomputed from
the updated counters. Absent key: miss counted, hit_rate recomputed. Always Ok, so
the value is the returned Option and the new state. -/
def get_scrape_result (svc : MemoryCacheService) (now : Nat) (url : String)
    (format : OutputFormat) : Option CommandResult × MemoryCacheService :=
  let key := generate_key url format "scrape"
  match lookupKey key svc.cache with
  | some entry =>
      if is_expired now entry then
        let cache := eraseKey key svc.cache
        let stats := { svc.statistics with
          cache_misses := svc.statistics.cache_misses + 1
          total_entries := cache.length
          scrape_entries := countData CacheData.isScrape cache }
        (none, { svc with cache := cache, statistics := stats })
      else
        let entry2 := { entry with access_count := entry.access_count + 1, last_accessed := now }
        let cache := insertKey key entry2 svc.cache
        let result :=
          match entry.data with
          | .ScrapeResult r => some r
          | _ => none
        let stats1 := { svc.statistics with cache_hits := svc.statistics.cache_hits + 1 }
        let stats2 := { stats1 with hit_rate := stats1.calculate_hit_rate }
        (result, { svc with cache := cache, statistics := stats2 })
  | none =>
      let stats1 := { svc.statistics with cache_misses := svc.statistics.cache_misses + 1 }
      let stats2 := { stats1 with hit_rate := stats1.calculate_hit_rate }
      (none, { svc with statistics := stats2 })

/-- MemoryCacheService::exists, cache_service.rs lines 326-339 (named existsEntry
here because exists is a Lean keyword): reads both the scrape and the crawl key
under the read lock, reporting true when either holds a non-expired entry; performs
no mutation, so the state component of the result is the input state. -/
def existsEntry (svc : MemoryCacheService) (now : Nat) (url : String)
    (format : OutputFormat) : Bool × MemoryCacheService :=
  let scrape_key := generate_key url format "scrape"
  let crawl_key := generate_key url format "crawl"
  let scrape_ex :=
    match lookupKey scrape_key svc.cache with
    | some entry => ! is_expired now entry
    | none => false
  let crawl_ex :=
    match lookupKey crawl_key svc.cache with
    | some entry => ! is_expired now entry
    | none => false
  (scrape_ex || crawl_ex, svc)

/-- MemoryCacheService::get_statistics, cache_service.rs lines 373-389: clones the
stored statistics (hit_rate included, unrecomputed) and refreshes only the three
entry-count fields from the live map. -/
def get_statistics (svc : MemoryCacheService) : CacheStatistics :=
  { svc.statistics with
    total_entries := svc.cache.length
    scrape_entries := countData CacheData.isScrape svc.cache
    crawl_entries := countData CacheData.isCrawl svc.cache }

end MemoryCacheService

/-! Remote-job polling, from src/api/services/client.rs and
src/api/models/crawl_model.rs. Each network round trip of check_crawl_status is one
element of a script: either Except.error with the transport-level failure message
(HTTP non-success, connection or parse failure, surfaced as an anyhow message) or
Except.ok with the decoded CrawlStatusResponse. -/

/-- The page-metadata fields of ScrapeData that monitor_crawl_job consults
(scrape_data.metadata.title and scrape_data.metadata.language in client.rs lines
246-251); the remaining dynamically-captured metadata fields are never read by the
poller and are omitted. -/
structure PageMetadata where
  title : Option String
  language : Option String
deriving DecidableEq

/-- ScrapeData, src/api/models/scrape_model.rs lines 333-358, restricted to the
fields monitor_crawl_job reads (url, markdown, html, metadata); the other content
payload fields are never consulted by the poller. -/
structure ScrapeData where
  url : Option String
  markdown : Option String
  html : Option String
  metadata : PageMetadata
deriving DecidableEq

/-- CrawlMetadata, src/api/models/crawl_model.rs lines 45-57. Dates carried as ms
timestamps. -/
structure CrawlMetadata where
  title : Option String
  description : Option String
  language : Option String
  keywords : Option (List String)
  robots : Option String
  og_image : Option String
  page_title : Option String
  author : Option String
  published_date : Option Nat
  modified_date : Option Nat
  site_name : Option String
deriving DecidableEq

/-- CrawlResponse, src/api/models/crawl_model.rs lines 33-41. -/
structure CrawlResponse where
  id : String
  url : String
  status : String
  completed_at : Option Nat
  markdown : Option String
  html : Option String
  metadata : CrawlMetadata
deriving DecidableEq

/-- CrawlStatusResponse, src/api/models/crawl_model.rs lines 88-94. -/
structure CrawlStatusResponse where
  status : String
  completed : Option Nat
  total : Option Nat
  data : Option (List ScrapeData)
  error : Option String
deriving DecidableEq

/-- CrawlState, src/api/models/crawl_model.rs lines 61-83. -/
inductive CrawlState
| Started (job_id : String)
| InProgress (job_id : String) (status : String) (completed : Nat) (total : Nat)
| Completed (job_id : String) (data : List ScrapeData)
| Failed (job_id : String) (error : String)
deriving DecidableEq

/-- CrawlProgress, src/services/mod.rs lines 15-20. -/
structure CrawlProgress where
  completed : Nat
  total : Nat
  current_url : Option String
  status : String
deriving DecidableEq

namespace FirecrawlClient

/-- FirecrawlClient::check_crawl_status, client.rs lines 145-181: a transport
failure propagates as an error; otherwise the status string is categorized, with
"completed" and "failed" terminal and every other string mapped to InProgress with
the completed/total counts defaulted to 0. -/
def check_crawl_status (job_id : String) (response : Except String CrawlStatusResponse) :
    Except String CrawlState :=
  match response with
  | .error e => .error e
  | .ok status_response =>
      if status_response.status = "completed" then
        .ok (.Completed job_id (status_response.data.getD []))
      else if status_response.status = "failed" then
        .ok (.Failed job_id (status_response.error.getD "Unknown error"))
      else
        .ok (.InProgress job_id status_response.status
          (status_response.completed.getD 0) (status_response.total.getD 0))

/-- The ScrapeData-to-CrawlResponse conversion performed per completed page at
client.rs lines 237-258, with the enumerate index and the completion instant. -/
def toCrawlResponse (now : Nat) (index : Nat) (sd : ScrapeData) : CrawlResponse :=
  { id := "crawl-result-" ++ toString index
    url := sd.url.getD "unknown"
    status := "completed"
    completed_at := some now
    markdown := sd.markdown
    html := sd.html
    metadata :=
      { title := sd.metadata.title
        description := none
        language := sd.metadata.language
        keywords := none
        robots := none
        og_image := none
        page_title := sd.metadata.title
        author := none
        published_date := none
        modified_date := none
        site_name := none } }

/-- The data.into_iter().enumerate() conversion loop of the Completed arm. -/
def convertCompleted (now : Nat) (data : List ScrapeData) : List CrawlResponse :=
  data.enum.map (fun p => toCrawlResponse now p.1 p.2)

/-- Observable trace of one monitor_crawl_job run over a poll script: the outcome
(none when the script was exhausted while the loop was still polling), the
progress_callback invocations in order, and how many polls were consumed. -/
structure MonitorRun where
  outcome : Option (Except FirecrawlError (List CrawlResponse))
  callbacks : List CrawlProgress
  polls_used : Nat
deriving DecidableEq

/-- FirecrawlClient::monitor_crawl_job, client.rs lines 214-292: loop on
check_crawl_status; a transport error is wrapped in
FirecrawlError::ApiError(ApiError::Other(...)) and propagated immediately by the
question-mark operator; Completed converts and returns the page data; Failed
returns ApiError::Other with the message prefixed by the literal text; InProgress
and Started invoke the progress callback once and re-poll after the fixed sleep. -/
def monitor_crawl_job (job_id : String) (now : Nat) :
    List (Except String CrawlStatusResponse) → MonitorRun
| [] => ⟨none, [], 0⟩
| poll :: rest =>
    match check_crawl_status job_id poll with
    | .error e => ⟨some (.error (.ApiError (.Other e))), [], 1⟩
    | .ok (.Completed _ data) => ⟨some (.ok (convertCompleted now data)), [], 1⟩
    | .ok (.Failed _ err) =>
        ⟨some (.error (.ApiError (.Other ("Crawl failed: " ++ err)))), [], 1⟩
    | .ok (.InProgress _ _ c t) =>
        let run := monitor_crawl_job job_id now rest
        ⟨run.outcome, ⟨c, t, none, "in_progress"⟩ :: run.callbacks, run.polls_used + 1⟩
    | .ok (.Started _) =>
        let run := monitor_crawl_job job_id now rest
        ⟨run.outcome, ⟨0, 0, none, "started"⟩ :: run.callbacks, run.polls_used + 1⟩

end FirecrawlClient

/-! Concrete instances used by the closed evaluation theorems and the witnesses. -/

/-- Boolean success test on Except, mirroring Result::is_ok. -/
def exceptOk {ε α : Type} : Except ε α → Bool
| .ok _ => true
| .error _ => false

/-- A queued command whose execute would succeed with a real saved file path. -/
def okCommand : Command :=
  ⟨"https://b.com", .ok (.Scrape "https://b.com" "/out/b.md")⟩

/-- A queued command whose execute fails with a validation error. -/
def failCommand : Command :=
  ⟨"https://a.com", .error (.ValidationError "bad")⟩

/-- The scrape outcome of the repository test fixture (cache_service.rs tests). -/
def exampleResult : CommandResult :=
  .Scrape "https://example.com" "/test/example.md"

/-- A fresh cache whose configured ttl is 1 millisecond (the repository test
test_cache_expiration uses Duration::from_millis(1)). -/
def svcTtl1ms : MemoryCacheService :=
  ⟨[], CacheStatistics.zeroed, ⟨true, 1, 100⟩⟩

/-- A fresh cache whose configured ttl is 0, meaning never expires. -/
def svcTtl0 : MemoryCacheService :=
  ⟨[], CacheStatistics.zeroed, ⟨true, 0, 100⟩⟩

/-- A fresh cache whose configured ttl is 1 second. -/
def svcTtl1s : MemoryCacheService :=
  ⟨[], CacheStatistics.zeroed, ⟨true, 1000, 100⟩⟩

/-- The 1-second-ttl cache after storing the example result at instant 0. -/
def svcStats1 : MemoryCacheService :=
  svcTtl1s.store_scrape_result 0 "https://example.com" .Markdown exampleResult

/-- svcStats1 after a hit at instant 0 (1 hit, 0 misses, stored hit_rate 100). -/
def svcStats2 : MemoryCacheService :=
  (svcStats1.get_scrape_result 0 "https://example.com" .Markdown).2

/-- svcStats2 after an expiry-removal miss at instant 5000 (the entry expired at
1000): 1 hit, 1 miss, stored hit_rate still 100. -/
def svcStats3 : MemoryCacheService :=
  (svcStats2.get_scrape_result 5000 "https://example.com" .Markdown).2

/-- A scripted in-progress poll: status "scraping", 1 of 3 pages done. -/
def pollScraping1 : CrawlStatusResponse :=
  ⟨"scraping", some 1, some 3, none, none⟩

/-- A scripted in-progress poll: status "scraping", 2 of 3 pages done. -/
def pollScraping2 : CrawlStatusResponse :=
  ⟨"scraping", some 2, some 3, none, none⟩

/-- The page data carried by the scripted completed poll. -/
def examplePages : List ScrapeData :=
  [⟨some "https://example.org/a", some "# A", none, ⟨some "A", none⟩⟩]

/-! Theorems. -/

/-- Helper: looking up a key right after inserting it yields the inserted entry. -/
theorem lookupKey_insertKey (k : String) (v : CacheEntry) (m : CacheMap) :
    lookupKey k (insertKey k v m) = some v := by
  induction m with
  | nil => simp [insertKey, lookupKey]
  | cons p rest ih =>
      obtain ⟨k2, e⟩ := p
      by_cases h : k2 = k
      · simp [insertKey, lookupKey, h]
      · simp [insertKey, lookupKey, h, ih]

/-- Claim C1: execute_all is required to return, for each enqueued command, the
actual outcome of that command's execute. The code instead never calls execute and
fabricates CommandResult::Scrape with an empty PathBuf for every command
(task_queue.rs lines 92-97, by its own admission a placeholder): evaluated on a
queue holding one command whose execute would return the real file path
/test/example.md, the batch returns the fabricated empty-path result and not the
actual outcome. -/
theorem execute_all_fabricates_placeholder :
    TaskQueue.execute_all [⟨"https://example.com", .ok exampleResult⟩]
      = .ok [.Scrape "https://example.com" ""]
    ∧ TaskQueue.execute_all [⟨"https://example.com", .ok exampleResult⟩]
      ≠ .ok [exampleResult] := by
  decide

/-- Claim C2, counterexample: with a failing first command and a succeeding second
command, execute_sequential returns the bare error — it aborts the batch instead of
running the rest and reporting the failure alongside the successes, and no
configuration exists to alter this. -/
theorem execute_sequential_aborts_counterexample :
    TaskQueue.execute_sequential [failCommand, okCommand] = .error (.ValidationError "bad")
    ∧ exceptOk (TaskQueue.execute_sequential [failCommand, okCommand]) = false := by
  decide

/-- Claim C2, amended: execute_sequential stops at the first command whose execute
fails and propagates exactly that error, discarding the outcomes of the commands
executed before it; stopping is unconditional (there is no stop-on-first-error
switch). In execute_all a task-execution failure cannot occur at all, since execute
is never invoked there. -/
theorem execute_sequential_stops_at_first_failure (pre post : List Command) (c : Command)
    (e : FirecrawlError) (hpre : pre.all (fun d => exceptOk d.execute) = true)
    (hc : c.execute = .error e) :
    TaskQueue.execute_sequential (pre ++ c :: post) = .error e := by
  induction pre with
  | nil => simp [TaskQueue.execute_sequential, hc]
  | cons d ds ih =>
      rw [List.all_cons, Bool.and_eq_true] at hpre
      obtain ⟨hd, hds⟩ := hpre
      cases hdE : d.execute with
      | error err => rw [hdE] at hd; simp [exceptOk] at hd
      | ok r =>
          have hrest := ih hds
          simp only [List.cons_append, TaskQueue.execute_sequential, hdE, List.append_eq, hrest]

/-- Witness for execute_sequential_stops_at_first_failure: a succeeding command
followed by a failing one. -/
theorem execute_sequential_stops_witness :
    ([okCommand].all (fun d => exceptOk d.execute) = true
      ∧ failCommand.execute = .error (.ValidationError "bad"))
    ∧ TaskQueue.execute_sequential ([okCommand] ++ failCommand :: [])
        = .error (.ValidationError "bad") :=
  ⟨⟨by decide, by decide⟩,
    execute_sequential_stops_at_first_failure [okCommand] [] failCommand
      (.ValidationError "bad") (by decide) (by decide)⟩

/-- Claim C7, counterexample: the variant FirecrawlError::RateLimitError is a
rate-limit error (its error_code is RATE_LIMIT_ERROR), yet is_retryable sends it to
the catch-all arm and reports false, contradicting the claim that rate-limit errors
are retryable. -/
theorem is_retryable_rate_limit_counterexample :
    FirecrawlError.is_retryable (.RateLimitError "quota exhausted") = false := by
  decide

/-- Claim C7, amended: is_retryable returns true on every NetworkError, on
TimeoutError, on ApiError::Timeout, ApiError::RateLimitExceeded and
ApiError::RequestError, and returns false on validation and storage errors — but
also false on the top-level RateLimitError variant, which falls into the catch-all
arm. -/
theorem is_retryable_by_kind (n : NetworkError) (s t u v w : String) (st : StorageError) :
    FirecrawlError.is_retryable (.NetworkError n) = true
    ∧ FirecrawlError.is_retryable (.TimeoutError s) = true
    ∧ FirecrawlError.is_retryable (.ApiError (.Timeout t)) = true
    ∧ FirecrawlError.is_retryable (.ApiError .RateLimitExceeded) = true
    ∧ FirecrawlError.is_retryable (.ApiError (.RequestError u)) = true
    ∧ FirecrawlError.is_retryable (.ValidationError v) = false
    ∧ FirecrawlError.is_retryable (.StorageError st) = false
    ∧ FirecrawlError.is_retryable (.RateLimitError w) = false :=
  ⟨rfl, rfl, rfl, rfl, rfl, rfl, rfl, rfl⟩

/-- Witness for is_retryable_by_kind at concrete errors. -/
theorem is_retryable_by_kind_witness :
    FirecrawlError.is_retryable (.NetworkError (.ConnectionFailed "refused")) = true
    ∧ FirecrawlError.is_retryable (.TimeoutError "late") = true
    ∧ FirecrawlError.is_retryable (.ApiError (.Timeout "late")) = true
    ∧ FirecrawlError.is_retryable (.ApiError .RateLimitExceeded) = true
    ∧ FirecrawlError.is_retryable (.ApiError (.RequestError "reset")) = true
    ∧ FirecrawlError.is_retryable (.ValidationError "missing url") = false
    ∧ FirecrawlError.is_retryable (.StorageError (.FileSystem "denied")) = false
    ∧ FirecrawlError.is_retryable (.RateLimitError "slow down") = false :=
  is_retryable_by_kind (.ConnectionFailed "refused") "late" "late" "reset" "missing url"
    "slow down" (.FileSystem "denied")

/-- Claim C9: in every scheduler state reachable during a batch execution of n
spawned units under Semaphore::new(limit), the number of units simultaneously
holding a permit never exceeds the limit, and no permit is ever leaked: available
permits plus held permits always equal the limit, because the RAII permit guard is
dropped on every exit path of the execution unit. -/
theorem execute_all_respects_concurrency_limit (n limit : Nat) (s : TaskQueue.SemState)
    (h : TaskQueue.Reachable n limit s) :
    s.executing ≤ limit ∧ s.available + s.executing = limit := by
  have key : s.available + s.executing = limit := by
    induction h with
    | refl => rfl
    | tail hsteps hstep ih =>
        rename_i b c
        cases hstep with
        | acquire hp ha =>
            show b.available - 1 + (b.executing + 1) = limit
            omega
        | finish he =>
            show b.available + 1 + (b.executing - 1) = limit
            omega
  exact ⟨by omega, key⟩

/-- Witness for execute_all_respects_concurrency_limit: three spawned units, limit
two, after two acquisitions. -/
theorem execute_all_concurrency_witness :
    TaskQueue.Reachable 3 2 ⟨0, 1, 2, 0⟩
    ∧ ((⟨0, 1, 2, 0⟩ : TaskQueue.SemState).executing ≤ 2
        ∧ (⟨0, 1, 2, 0⟩ : TaskQueue.SemState).available
            + (⟨0, 1, 2, 0⟩ : TaskQueue.SemState).executing = 2) := by
  have h1 : TaskQueue.Step ⟨2, 3, 0, 0⟩ ⟨1, 2, 1, 0⟩ :=
    TaskQueue.Step.acquire ⟨2, 3, 0, 0⟩ (by decide) (by decide)
  have h2 : TaskQueue.Step ⟨1, 2, 1, 0⟩ ⟨0, 1, 2, 0⟩ :=
    TaskQueue.Step.acquire ⟨1, 2, 1, 0⟩ (by decide) (by decide)
  have hr : TaskQueue.Reachable 3 2 ⟨0, 1, 2, 0⟩ :=
    Relation.ReflTransGen.tail (Relation.ReflTransGen.tail Relation.ReflTransGen.refl h1) h2
  exact ⟨hr, execute_all_respects_concurrency_limit 3 2 ⟨0, 1, 2, 0⟩ hr⟩

/-- Claim C3: the claim (and the repository test test_cache_expiration, which
stores under a 1 ms ttl, sleeps 10 ms and asserts the entry is gone) requires the
entry to expire. The code gates the expiry timestamp on config.ttl.as_secs() > 0,
and Duration::as_secs truncates 1 ms to 0, so the entry is stored with no expiry at
all: 10 ms after a store under a 1 ms ttl, get still returns the value, counts a
hit rather than a miss, and exists still reports true. -/
theorem cache_ttl_1ms_never_expires :
    lookupKey (MemoryCacheService.generate_key "https://example.com" .Markdown "scrape")
        (svcTtl1ms.store_scrape_result 0 "https://example.com" .Markdown exampleResult).cache
      = some ⟨.ScrapeResult exampleResult, 0, none, 1, 0⟩
    ∧ ((svcTtl1ms.store_scrape_result 0 "https://example.com" .Markdown exampleResult).get_scrape_result
        10 "https://example.com" .Markdown).1 = some exampleResult
    ∧ (((svcTtl1ms.store_scrape_result 0 "https://example.com" .Markdown exampleResult).get_scrape_result
        10 "https://example.com" .Markdown).2).statistics.cache_hits = 1
    ∧ (((svcTtl1ms.store_scrape_result 0 "https://example.com" .Markdown exampleResult).get_scrape_result
        10 "https://example.com" .Markdown).2).statistics.cache_misses = 0
    ∧ ((((svcTtl1ms.store_scrape_result 0 "https://example.com" .Markdown exampleResult).get_scrape_result
        10 "https://example.com" .Markdown).2).existsEntry 10 "https://example.com" .Markdown).1 = true := by
  decide

/-- Claim C6: putting V under a key with ttl 0 (never expires) and immediately
getting the same key returns Some V, increments the hit counter by exactly 1
relative to the state before the get (the store itself leaves the hit counter
unchanged), and leaves the entry present in the map. -/
theorem cache_put_ttl0_then_get (svc : MemoryCacheService) (now : Nat) (url : String)
    (format : OutputFormat) (V : CommandResult) (httl : svc.config.ttl_ms = 0) :
    ((svc.store_scrape_result now url format V).get_scrape_result now url format).1 = some V
    ∧ (((svc.store_scrape_result now url format V).get_scrape_result now url format).2).statistics.cache_hits
        = svc.statistics.cache_hits + 1
    ∧ (svc.store_scrape_result now url format V).statistics.cache_hits
        = svc.statistics.cache_hits
    ∧ lookupKey (MemoryCacheService.generate_key url format "scrape")
        ((((svc.store_scrape_result now url format V).get_scrape_result now url format).2).cache)
      ≠ none := by
  have hgate : svc.config.ttl_as_secs = 0 := by
    simp [CacheConfig.ttl_as_secs, httl]
  simp [MemoryCacheService.store_scrape_result, MemoryCacheService.get_scrape_result,
    hgate, lookupKey_insertKey, MemoryCacheService.is_expired]

/-- Witness for cache_put_ttl0_then_get on a fresh ttl-0 cache. -/
theorem cache_put_ttl0_then_get_witness :
    svcTtl0.config.ttl_ms = 0
    ∧ (((svcTtl0.store_scrape_result 0 "https://example.com" .Markdown exampleResult).get_scrape_result
          0 "https://example.com" .Markdown).1 = some exampleResult
      ∧ (((svcTtl0.store_scrape_result 0 "https://example.com" .Markdown exampleResult).get_scrape_result
          0 "https://example.com" .Markdown).2).statistics.cache_hits
          = svcTtl0.statistics.cache_hits + 1
      ∧ (svcTtl0.store_scrape_result 0 "https://example.com" .Markdown exampleResult).statistics.cache_hits
          = svcTtl0.statistics.cache_hits
      ∧ lookupKey (MemoryCacheService.generate_key "https://example.com" .Markdown "scrape")
          ((((svcTtl0.store_scrape_result 0 "https://example.com" .Markdown exampleResult).get_scrape_result
            0 "https://example.com" .Markdown).2).cache)
        ≠ none) :=
  ⟨rfl, cache_put_ttl0_then_get svcTtl0 0 "https://example.com" .Markdown exampleResult rfl⟩

/-- Claim C8, counterexample: a reachable state (store under a 1 s ttl, one hit,
then one expiry-removal miss) in which get_statistics reports hit_rate 100 while
the counters read 1 hit and 1 miss, so the reported value equals neither
hits / (hits + misses) = 1/2 nor its percentage form 50: the stored hit_rate
lags the counters. -/
theorem hit_rate_stale_counterexample :
    (svcStats3.get_statistics).cache_hits = 1
    ∧ (svcStats3.get_statistics).cache_misses = 1
    ∧ (svcStats3.get_statistics).hit_rate = 100
    ∧ (svcStats3.get_statistics).hit_rate
        ≠ ((svcStats3.get_statistics).cache_hits : Rat)
            / (((svcStats3.get_statistics).cache_hits : Rat)
              + ((svcStats3.get_statistics).cache_misses : Rat))
    ∧ (svcStats3.get_statistics).hit_rate ≠ 50 := by
  have hstats : svcStats3.get_statistics = ⟨0, 0, 0, 1, 1, 0, 100⟩ := by
    simp [svcStats3, svcStats2, svcStats1, svcTtl1s, CacheStatistics.zeroed,
      MemoryCacheService.store_scrape_result, MemoryCacheService.get_scrape_result,
      MemoryCacheService.get_statistics, MemoryCacheService.generate_key,
      OutputFormat.display, CacheConfig.ttl_as_secs, insertKey, lookupKey, eraseKey,
      MemoryCacheService.is_expired, CacheStatistics.calculate_hit_rate, countData]
  rw [hstats]
  refine ⟨rfl, rfl, rfl, ?_, ?_⟩ <;> norm_num

/-- Claim C8, amended: get_statistics reports the stored hit_rate field without
recomputation; that field is recomputed from the updated counters by the hit path
and the plain-miss path of get, but the expiry-removal miss path leaves it
untouched while incrementing the miss counter, so the reported value can lag
hits / (hits + misses). -/
theorem hit_rate_stored_path_characterization (svc : MemoryCacheService) (now : Nat)
    (url : String) (format : OutputFormat) :
    (((svc.get_scrape_result now url format).2).get_statistics).hit_rate
      = ((svc.get_scrape_result now url format).2).statistics.hit_rate
    ∧ ((svc.get_scrape_result now url format).2).statistics.hit_rate
      = (match lookupKey (MemoryCacheService.generate_key url format "scrape") svc.cache with
         | some entry =>
             if MemoryCacheService.is_expired now entry then svc.statistics.hit_rate
             else CacheStatistics.calculate_hit_rate
               { svc.statistics with cache_hits := svc.statistics.cache_hits + 1 }
         | none =>
             CacheStatistics.calculate_hit_rate
               { svc.statistics with cache_misses := svc.statistics.cache_misses + 1 }) := by
  constructor
  · simp [MemoryCacheService.get_statistics]
  · cases h : lookupKey (MemoryCacheService.generate_key url format "scrape") svc.cache with
    | none => simp [MemoryCacheService.get_scrape_result, h]
    | some entry =>
        by_cases he : MemoryCacheService.is_expired now entry = true
        · simp [MemoryCacheService.get_scrape_result, h, he]
        · simp [MemoryCacheService.get_scrape_result, h, he]

/-- Claim C10: the exists probe mutates nothing (the returned state is the input
state, so no statistics, access metadata or entry removal can occur) and reports
true exactly when a non-expired entry is present under the scrape key or under the
crawl key for the url and format, without distinguishing the two kinds. -/
theorem existsEntry_frame_and_characterization (svc : MemoryCacheService) (now : Nat)
    (url : String) (format : OutputFormat) :
    (svc.existsEntry now url format).2 = svc
    ∧ ((svc.existsEntry now url format).1 = true ↔
        (∃ e, lookupKey (MemoryCacheService.generate_key url format "scrape") svc.cache = some e
            ∧ MemoryCacheService.is_expired now e = false)
        ∨ (∃ e, lookupKey (MemoryCacheService.generate_key url format "crawl") svc.cache = some e
            ∧ MemoryCacheService.is_expired now e = false)) := by
  refine ⟨rfl, ?_⟩
  cases hs : lookupKey (MemoryCacheService.generate_key url format "scrape") svc.cache with
  | none =>
      cases hc : lookupKey (MemoryCacheService.generate_key url format "crawl") svc.cache with
      | none => simp [MemoryCacheService.existsEntry, hs, hc]
      | some e2 => simp [MemoryCacheService.existsEntry, hs, hc]
  | some e1 =>
      cases hc : lookupKey (MemoryCacheService.generate_key url format "crawl") svc.cache with
      | none => simp [MemoryCacheService.existsEntry, hs, hc]
      | some e2 => simp [MemoryCacheService.existsEntry, hs, hc]

/-- Claim C4: two polls with a status outside completed/failed are each treated as
in progress and invoke the progress callback exactly once per poll cycle with the
reported counts; the third poll with status completed ends the loop, which returns
the page results carried by the completed status (converted to CrawlResponse in
order), with exactly two callback invocations and three polls consumed. -/
theorem monitor_two_inprogress_then_completed (job_id : String) (now : Nat)
    (r1 r2 : CrawlStatusResponse) (c3 t3 : Option Nat) (e3 : Option String)
    (d : List ScrapeData) (rest : List (Except String CrawlStatusResponse))
    (h1c : r1.status ≠ "completed") (h1f : r1.status ≠ "failed")
    (h2c : r2.status ≠ "completed") (h2f : r2.status ≠ "failed") :
    FirecrawlClient.monitor_crawl_job job_id now
        (.ok r1 :: .ok r2 :: .ok ⟨"completed", c3, t3, some d, e3⟩ :: rest)
      = ⟨some (.ok (FirecrawlClient.convertCompleted now d)),
         [⟨r1.completed.getD 0, r1.total.getD 0, none, "in_progress"⟩,
          ⟨r2.completed.getD 0, r2.total.getD 0, none, "in_progress"⟩], 3⟩ := by
  simp [FirecrawlClient.monitor_crawl_job, FirecrawlClient.check_crawl_status,
    h1c, h1f, h2c, h2f]

/-- Witness for monitor_two_inprogress_then_completed: a script of two "scraping"
polls followed by a completed poll carrying one page. -/
theorem monitor_two_inprogress_witness :
    (pollScraping1.status ≠ "completed" ∧ pollScraping1.status ≠ "failed"
      ∧ pollScraping2.status ≠ "completed" ∧ pollScraping2.status ≠ "failed")
    ∧ FirecrawlClient.monitor_crawl_job "job-1" 7
        (.ok pollScraping1 :: .ok pollScraping2
          :: .ok ⟨"completed", some 3, some 3, some examplePages, none⟩ :: [])
      = ⟨some (.ok (FirecrawlClient.convertCompleted 7 examplePages)),
         [⟨pollScraping1.completed.getD 0, pollScraping1.total.getD 0, none, "in_progress"⟩,
          ⟨pollScraping2.completed.getD 0, pollScraping2.total.getD 0, none, "in_progress"⟩], 3⟩ :=
  ⟨⟨by decide, by decide, by decide, by decide⟩,
    monitor_two_inprogress_then_completed "job-1" 7 pollScraping1 pollScraping2
      (some 3) (some 3) none examplePages [] (by decide) (by decide) (by decide) (by decide)⟩

/-- Claim C5, counterexample: both the remote job failure and a poll transport
failure surface as FirecrawlError::ApiError(ApiError::Other(..)), distinguished
only by the carried message, so a transport error whose message happens to read
Crawl failed: x produces a monitor outcome identical to that of the remote status
failed with reason x — the two error sources are not distinguishable in general. -/
theorem monitor_error_collision_counterexample :
    FirecrawlClient.monitor_crawl_job "job-1" 7 [.error ("Crawl failed: " ++ "x")]
      = FirecrawlClient.monitor_crawl_job "job-1" 7 [.ok ⟨"failed", none, none, none, some "x"⟩]
    ∧ (FirecrawlClient.monitor_crawl_job "job-1" 7 [.error ("Crawl failed: " ++ "x")]).outcome
      = some (.error (.ApiError (.Other "Crawl failed: x"))) := by
  decide

/-- Claim C5, amended: a poll reporting status failed with reason x makes the loop
return ApiError::Other carrying the message Crawl failed: x; a transport-level
error during a poll is not retried — it propagates immediately after that single
poll, with no callback and the rest of the script unconsumed, as ApiError::Other
carrying the transport message unchanged; the two resulting errors share the
variant and are distinguishable exactly when their carried messages differ. -/
theorem monitor_failed_reason_and_transport (job_id : String) (now : Nat)
    (reason e : String) (c t : Option Nat) (d : Option (List ScrapeData))
    (rest rest2 : List (Except String CrawlStatusResponse))
    (he : e ≠ "Crawl failed: " ++ reason) :
    FirecrawlClient.monitor_crawl_job job_id now (.ok ⟨"failed", c, t, d, some reason⟩ :: rest)
      = ⟨some (.error (.ApiError (.Other ("Crawl failed: " ++ reason)))), [], 1⟩
    ∧ FirecrawlClient.monitor_crawl_job job_id now (.error e :: rest2)
      = ⟨some (.error (.ApiError (.Other e))), [], 1⟩
    ∧ FirecrawlError.ApiError (.Other ("Crawl failed: " ++ reason))
      ≠ FirecrawlError.ApiError (.Other e) := by
  refine ⟨?_, ?_, ?_⟩
  · simp [FirecrawlClient.monitor_crawl_job, FirecrawlClient.check_crawl_status]
  · simp [FirecrawlClient.monitor_crawl_job, FirecrawlClient.check_crawl_status]
  · intro hcontra
    injection hcontra with h1
    injection h1 with h2
    exact he h2.symm

/-- Witness for monitor_failed_reason_and_transport: reason x against the
transport message produced by an HTTP-level status-check failure. -/
theorem monitor_failed_reason_witness :
    ("Status check failed" ≠ "Crawl failed: " ++ "x")
    ∧ (FirecrawlClient.monitor_crawl_job "job-1" 7 [.ok ⟨"failed", none, none, none, some "x"⟩]
        = ⟨some (.error (.ApiError (.Other ("Crawl failed: " ++ "x")))), [], 1⟩
      ∧ FirecrawlClient.monitor_crawl_job "job-1" 7 [.error "Status check failed"]
        = ⟨some (.error (.ApiError (.Other "Status check failed"))), [], 1⟩
      ∧ FirecrawlError.ApiError (.Other ("Crawl failed: " ++ "x"))
        ≠ FirecrawlError.ApiError (.Other "Status check failed")) :=
  ⟨by decide,
    monitor_failed_reason_and_transport "job-1" 7 "x" "Status check failed"
      none none none [] [] (by decide)⟩

end Firecrawl
